import Mathlib

/-!
Verification development for the X profile analyzer.

The definitions below are a shallow embedding of the Python sources:
`X_profile_data.py` (rate-limited client and feature transformer),
`content_agent.py` (keyword categorizer and standard analysis lane),
`langchain_agent.py` (enhanced analysis lane) and `cli.py`
(`get_profile_analysis`, the run orchestrator).  Time is modelled in
abstract time-units (natural numbers), engagement ratios in `ℚ`.
-/

namespace XProfile

/-! ### Data model: `X_profile_data.py` -/

/-- The four public-metric counters attached to a tweet. -/
structure PublicMetrics where
  like_count : ℕ
  retweet_count : ℕ
  reply_count : ℕ
  quote_count : ℕ
deriving DecidableEq, Repr

/-- A fetched post: text plus its public metrics. -/
structure Tweet where
  text : String
  metrics : PublicMetrics
deriving DecidableEq, Repr

/-- `engagement` as computed in `tweets_to_dataframe`:
sum of the four count metrics. -/
def engagement (m : PublicMetrics) : ℕ :=
  m.like_count + m.retweet_count + m.reply_count + m.quote_count

/-- `engagement_rate` as computed in `tweets_to_dataframe`:
`engagement / max(like_count, 1)`. -/
def engagementRate (m : PublicMetrics) : ℚ :=
  (engagement m : ℚ) / ((max m.like_count 1 : ℕ) : ℚ)

/-- One row of the feature table built by `tweets_to_dataframe`,
restricted to the fields the analysis pipeline reads.  `catWrites`
instruments the number of assignments to the `content_category` column
(the dataframe starts without that column, hence `none` / `0`). -/
structure Row where
  text : String
  likes : ℕ
  retweets : ℕ
  replies : ℕ
  quotes : ℕ
  engagement : ℕ
  engagement_rate : ℚ
  content_category : Option String
  catWrites : ℕ
deriving DecidableEq, Repr

/-- One iteration of the loop body of `tweets_to_dataframe`. -/
def tweetToRow (t : Tweet) : Row :=
  { text := t.text
    likes := t.metrics.like_count
    retweets := t.metrics.retweet_count
    replies := t.metrics.reply_count
    quotes := t.metrics.quote_count
    engagement := engagement t.metrics
    engagement_rate := engagementRate t.metrics
    content_category := none
    catWrites := 0 }

/-- `X_profile_analytics.tweets_to_dataframe`: one row per tweet,
in fetch order. -/
def tweets_to_dataframe (ts : List Tweet) : List Row :=
  ts.map tweetToRow

/-! ### Categorizer: `content_agent.categorize_tweet` -/

/-- Python substring test `pat in hay` on character lists. -/
def charsContain (pat : List Char) : List Char → Bool
  | [] => pat.isEmpty
  | c :: rest => pat.isPrefixOf (c :: rest) || charsContain pat rest

/-- Python `text.lower()`, modelled character-wise (the source texts are
ASCII, where `Char.toLower` agrees with Python's `str.lower`). -/
def strToLower (s : String) : List Char :=
  s.toList.map Char.toLower

/-- keyword patterns for the Educational group (source line 94). -/
def educational_patterns : List String :=
  ["how to", "guide", "tutorial", "learn", "tip", "advice", "here\x27s", "steps"]

/-- keyword patterns for the Personal group (source line 95). -/
def personal_patterns : List String :=
  ["i ", "my ", "me ", "personal", "story", "experience", "feeling", "today"]

/-- keyword patterns for the Promotional group (source line 96). -/
def promotional_patterns : List String :=
  ["buy", "sale", "course", "product", "launch", "offer", "discount", "link in bio"]

/-- keyword patterns for the Opinion group (source line 97). -/
def opinion_patterns : List String :=
  ["think", "believe", "opinion", "hot take", "unpopular", "controversial"]

/-- keyword patterns for the News group (source line 98). -/
def news_patterns : List String :=
  ["breaking", "just announced", "update", "news", "happening now"]

/-- Python `any(pattern in text_lower for pattern in patterns)`. -/
def matchesAny (pats : List String) (textLower : List Char) : Bool :=
  pats.any (fun p => charsContain p.toList textLower)

/-- `ContentAnalysisAgent.categorize_tweet`: lower-case the text and test
the five keyword groups in source order, defaulting to `"General"`. -/
def categorize_tweet (text : String) : String :=
  let text_lower := strToLower text
  if matchesAny educational_patterns text_lower then "Educational"
  else if matchesAny personal_patterns text_lower then "Personal"
  else if matchesAny promotional_patterns text_lower then "Promotional"
  else if matchesAny opinion_patterns text_lower then "Opinion/Commentary"
  else if matchesAny news_patterns text_lower then "News/Updates"
  else "General"

/-- The ordered (label, pattern-set) groups, in the precedence order the
spec fixes: Educational, Personal, Promotional, Opinion, News. -/
def categoryGroups : List (String × List String) :=
  [("Educational", educational_patterns),
   ("Personal", personal_patterns),
   ("Promotional", promotional_patterns),
   ("Opinion/Commentary", opinion_patterns),
   ("News/Updates", news_patterns)]

/-- Spec-side categorizer, following the spec's words: return the label of
the first group whose pattern set has a substring match in the lower-cased
text, and `"General"` when no group matches. -/
def specCategorize (text : String) : String :=
  match categoryGroups.find? (fun g => matchesAny g.2 (strToLower text)) with
  | some g => g.1
  | none => "General"

/-! ### Rate-limited client: `X_tweets` timing model

Time is a natural-number clock.  `clock` is the current time, `last`
the instance field `last_request_time` (initially `0`).  Sleeping `d`
units advances the clock by `d`; provider calls are instantaneous. -/

/-- Mutable timing state of one `X_tweets` instance. -/
structure RLState where
  clock : ℕ
  last : ℕ
deriving DecidableEq, Repr

/-- `min_delay = 5` (source line 27). -/
def min_delay : ℕ := 5

/-- `X_tweets._rate_limited_request`: if the elapsed time since the last
request is below `min_delay`, sleep the remainder; then record the current
time as `last_request_time`. -/
def rate_limited_request (s : RLState) : RLState :=
  let elapsed := s.clock - s.last
  let c := if elapsed < min_delay then s.clock + (min_delay - elapsed) else s.clock
  ⟨c, c⟩

/-- The two fetch operations of `X_tweets` that issue provider calls. -/
inductive XOp
  | userInfo
  | usersTweets
deriving DecidableEq, Repr

/-- Run one fetch operation: returns the successor state and the emitted
provider calls as (guarded?, time) pairs, where guarded? marks the call
issued right after `_rate_limited_request`.

`get_user_info` issues one guarded call.  `get_users_tweets` issues a
guarded `get_user` call, then `time.sleep(3)`, then the unguarded
`get_users_tweets` call (source lines 59 to 70); the 3-unit sleep does not
update `last_request_time`. -/
def runOp (s : RLState) : XOp → RLState × List (Bool × ℕ)
  | .userInfo =>
      let s1 := rate_limited_request s
      (s1, [(true, s1.clock)])
  | .usersTweets =>
      let s1 := rate_limited_request s
      (⟨s1.clock + 3, s1.last⟩, [(true, s1.clock), (false, s1.clock + 3)])

/-- Run a sequence of fetch operations, each preceded by an arbitrary
caller-side idle time, collecting all provider-call events in order. -/
def callEvents : RLState → List (ℕ × XOp) → List (Bool × ℕ)
  | _, [] => []
  | s, (d, op) :: rest =>
      let r := runOp ⟨s.clock + d, s.last⟩ op
      r.2 ++ callEvents r.1 rest

/-- Times of all provider calls of a run, in order. -/
def callTimes (s : RLState) (ops : List (ℕ × XOp)) : List ℕ :=
  (callEvents s ops).map Prod.snd

/-- Times of the guarded provider calls (those immediately preceded by
`_rate_limited_request`), in order. -/
def guardedCallTimes (s : RLState) (ops : List (ℕ × XOp)) : List ℕ :=
  (callEvents s ops).filterMap (fun p => if p.1 then some p.2 else none)

/-! ### Rate-limit rejection handling (cooldown and retry) -/

/-- Outcome of a single provider attempt, as scripted by the environment. -/
inductive FetchOutcome (α : Type)
  | success (a : α)
  | rateLimited
  | otherError
deriving DecidableEq, Repr

/-- The 15-minute cooldown, `time.sleep(900)` (source lines 51 and 74). -/
def cooldown : ℕ := 900

/-- `X_tweets.get_user_info` retry structure, driven by the scripted
outcome of each successive attempt: a success returns the user data, any
other provider error returns `None`, and a rate-limit rejection sleeps
`cooldown` units and retries the identical request.  Result: the returned
value and the total time slept in cooldowns. -/
def get_user_info {α : Type} : List (FetchOutcome α) → Option α × ℕ
  | [] => (none, 0)
  | .success a :: _ => (some a, 0)
  | .otherError :: _ => (none, 0)
  | .rateLimited :: rest =>
      let r := get_user_info rest
      (r.1, r.2 + cooldown)

/-- `X_tweets.get_users_tweets` retry structure: same shape, but any
non-rate-limit error returns the empty list (source lines 71 and 78). -/
def get_users_tweets {α : Type} : List (FetchOutcome (List α)) → List α × ℕ
  | [] => ([], 0)
  | .success a :: _ => (a, 0)
  | .otherError :: _ => ([], 0)
  | .rateLimited :: rest =>
      let r := get_users_tweets rest
      (r.1, r.2 + cooldown)

/-! ### Standard-lane aggregate statistics: `prepare_content_data` -/

/-- pandas `Series.mean` on the engagement column. -/
def listMean (l : List ℚ) : ℚ :=
  l.sum / (l.length : ℚ)

/-- pandas `Series.median`: middle of the sorted values, or the average
of the two middle values for an even count. -/
def listMedian (l : List ℚ) : ℚ :=
  let s := l.insertionSort (fun a b => a ≤ b)
  let n := l.length
  if n % 2 = 1 then s.getD (n / 2) 0
  else (s.getD (n / 2 - 1) 0 + s.getD (n / 2) 0) / 2

/-- pandas `Series.max` on a nonempty column (0 for the empty column). -/
def listMax : List ℚ → ℚ
  | [] => 0
  | x :: xs => xs.foldl max x

/-- pandas `Series.std` squared: the sample variance with `ddof = 1`,
`sum (x - mean)^2 / (n - 1)`. -/
def sampleVariance (l : List ℚ) : ℚ :=
  let m := listMean l
  ((l.map (fun x => (x - m) ^ 2)).sum) / ((l.length : ℚ) - 1)

/-- `s` is the value of pandas `Series.std`: the non-negative square root
of the sample variance. -/
def stdIs (l : List ℚ) (s : ℚ) : Prop :=
  0 ≤ s ∧ s ^ 2 = sampleVariance l

/-- The engagement column of a feature table, as rationals. -/
def rowEngagements (rows : List Row) : List ℚ :=
  rows.map (fun r => (r.engagement : ℚ))

/-! ### Enhanced lane: `langchain_agent.LangChainContentAgent` -/

/-- The methods defined on class `LangChainContentAgent` in the source.
Python attribute lookup of a method name outside this list raises
`AttributeError`. -/
def lcClassMethods : List String :=
  ["__init__", "create_document_store", "analyze_content_themes",
   "generate_content_recommendations", "analyze_content_with_langchain",
   "_enhanced_openai_analysis", "_call_openai", "search_similar_content",
   "analyze_engagement_patterns"]

/-- The names bound by the try-import block at the top of
`langchain_agent.py` (source lines 13 to 17); a name outside this list
that is not otherwise defined raises `NameError` when evaluated. -/
def lcImportedNames : List String :=
  ["Document", "OpenAIEmbeddings", "ChatOpenAI",
   "RecursiveCharacterTextSplitter", "FAISS"]

/-- The state of a constructed `LangChainContentAgent`. -/
structure LCAgent where
  langchain_enabled : Bool
deriving DecidableEq, Repr

/-- `LangChainContentAgent.__init__`: raises `ValueError` when the OpenAI
API key is absent; otherwise the agent is built with `langchain_enabled`
true exactly when the LangChain import succeeded (`LANGCHAIN_AVAILABLE`)
and the LangChain component initialization did not fail (a failure is
caught and flips the flag off, source lines 37 to 58). -/
def mkLangChainAgent (apiKeyPresent langchainAvailable lcInitOk : Bool) :
    Except String LCAgent :=
  if apiKeyPresent then .ok ⟨langchainAvailable && lcInitOk⟩
  else .error "OpenAI API key not found"

/-- The dictionary returned by `analyze_content_with_langchain`: either a
result dictionary without an `"error"` key, or the explicit error-marker
dictionary `{agent, username, error, timestamp}`. -/
inductive LCResult
  | ok
  | errMarker (msg : String)
deriving DecidableEq, Repr

/-- Whether the returned dictionary carries the `"error"` key. -/
def hasErrorKey : LCResult → Bool
  | .ok => false
  | .errMarker _ => true

/-- `LangChainContentAgent.analyze_content_with_langchain` (source lines
197 to 214): when `langchain_enabled`, the body evaluates
`self._langchain_analysis`, whose attribute lookup on the class either
dispatches to that method or raises `AttributeError`; the except clause
catches every exception and returns the error-marker dictionary.  When
not enabled, `_enhanced_openai_analysis` runs, whose own provider calls
catch their errors internally and always return a result dictionary. -/
def analyze_content_with_langchain (a : LCAgent) (df : List Row)
    (username : String) : LCResult :=
  if a.langchain_enabled then
    if "_langchain_analysis" ∈ lcClassMethods then
      LCResult.ok
    else
      LCResult.errMarker "AttributeError: _langchain_analysis"
  else
    let _ := df
    let _ := username
    LCResult.ok

/-! ### Run orchestrator: `cli.get_profile_analysis` -/

/-- A value of the final results mapping: the enhanced-lane dictionary or
the standard-lane dictionary (whose contents the claims do not inspect). -/
inductive ResultValue
  | langchainRes (r : LCResult)
  | standardRes
deriving DecidableEq, Repr

/-- The observable outcome of one `get_profile_analysis` run:
the returned value (`none` models Python `None`), the final state of the
feature table, and whether each analysis lane was actually invoked. -/
structure RunOutcome where
  result : Option (List (String × ResultValue))
  finalRows : List Row
  enhancedLaneInvoked : Bool
  standardLaneInvoked : Bool
deriving DecidableEq, Repr

/-- One pass of the category-assignment loop over the table: write
`content_category := categorize_tweet text` into every row (done once in
`cli.get_profile_analysis` step 3 and once more inside
`prepare_content_data`). -/
def assignCategories (rows : List Row) : List Row :=
  rows.map (fun r =>
    { r with content_category := some (categorize_tweet r.text)
             catWrites := r.catWrites + 1 })

/-- `cli.get_profile_analysis`, for a run whose fetch step returned
`tweets`: return `None` on an empty fetch before any lane runs; otherwise
build the feature table, assign categories (first write), run the
enhanced lane when `use_langchain` is set (a constructor exception is
caught and leaves the `langchain` key unset), then always run the
standard lane, whose `prepare_content_data` assigns categories again
(second write) on the same table. -/
def get_profile_analysis (tweets : List Tweet) (use_langchain : Bool)
    (apiKeyPresent langchainAvailable lcInitOk : Bool) (username : String) :
    RunOutcome :=
  if tweets.isEmpty then
    { result := none, finalRows := [],
      enhancedLaneInvoked := false, standardLaneInvoked := false }
  else
    let df1 := assignCategories (tweets_to_dataframe tweets)
    let lcEntry : Option LCResult :=
      if use_langchain then
        match mkLangChainAgent apiKeyPresent langchainAvailable lcInitOk with
        | .ok a => some (analyze_content_with_langchain a df1 username)
        | .error _ => none
      else none
    let df2 := assignCategories df1
    let results : List (String × ResultValue) :=
      (match lcEntry with
       | some r => [("langchain", ResultValue.langchainRes r)]
       | none => []) ++ [("standard", ResultValue.standardRes)]
    { result := some results, finalRows := df2,
      enhancedLaneInvoked := lcEntry.isSome, standardLaneInvoked := true }

/-- Key lookup in the results mapping. -/
def lookupKey (results : List (String × ResultValue)) (k : String) :
    Option ResultValue :=
  (results.find? (fun p => p.1 == k)).map Prod.snd

/-! ### Concrete fixtures -/

/-- A tweet with the given text and like count, other metrics zero. -/
def mkTweet (txt : String) (lk rt rp qt : ℕ) : Tweet :=
  ⟨txt, ⟨lk, rt, rp, qt⟩⟩

/-- The three-post fixture of the spec scenario: engagement 5, 10, 15. -/
def tweets3 : List Tweet :=
  [mkTweet "alpha" 5 0 0 0, mkTweet "beta" 10 0 0 0, mkTweet "gamma" 15 0 0 0]

/-- The engagement column of the fixture's feature table. -/
def engagements3 : List ℚ :=
  rowEngagements (tweets_to_dataframe tweets3)

/-! ### Theorems -/

/-- C6: for every input text, `categorize_tweet` returns the label of the
first group, in the fixed order Educational, Personal, Promotional,
Opinion/Commentary, News/Updates, whose keyword-pattern set has a
substring match in the lower-cased text, and returns General when no
group matches; determinism and the Educational-over-Personal precedence
follow from this first-match characterization. -/
theorem C6_categorize_first_match (t : String) :
    categorize_tweet t = specCategorize t := by
  by_cases h1 : matchesAny educational_patterns (strToLower t) <;>
  by_cases h2 : matchesAny personal_patterns (strToLower t) <;>
  by_cases h3 : matchesAny promotional_patterns (strToLower t) <;>
  by_cases h4 : matchesAny opinion_patterns (strToLower t) <;>
  by_cases h5 : matchesAny news_patterns (strToLower t) <;>
  simp [categorize_tweet, specCategorize, categoryGroups, List.find?,
    h1, h2, h3, h4, h5]

/-- C8: for every post, the divisor of `engagement_rate` is
`max(like_count, 1)`, which is never zero, and when `like_count = 0` the
rate equals the engagement itself. -/
theorem C8_engagement_rate_never_divides_by_zero (m : PublicMetrics) :
    ((max m.like_count 1 : ℕ) : ℚ) ≠ 0 ∧
    (m.like_count = 0 → engagementRate m = (engagement m : ℚ)) := by
  constructor
  · have h : 1 ≤ max m.like_count 1 := le_max_right _ _
    have h0 : max m.like_count 1 ≠ 0 := by omega
    exact_mod_cast h0
  · intro h
    simp [engagementRate, h]

/-- C8 witness: the zero-like post with metrics (0, 2, 3, 4). -/
theorem C8_engagement_rate_never_divides_by_zero_witness :
    ((max (⟨0, 2, 3, 4⟩ : PublicMetrics).like_count 1 : ℕ) : ℚ) ≠ 0 ∧
    engagementRate ⟨0, 2, 3, 4⟩ = ((engagement ⟨0, 2, 3, 4⟩ : ℕ) : ℚ) :=
  ⟨(C8_engagement_rate_never_divides_by_zero ⟨0, 2, 3, 4⟩).1,
   (C8_engagement_rate_never_divides_by_zero ⟨0, 2, 3, 4⟩).2 rfl⟩

/-- C10: the derived engagement rate is non-negative, and whenever
`like_count ≥ 1` it is at least 1, because the engagement total contains
the like count as a summand. -/
theorem C10_engagement_rate_lower_bounds (m : PublicMetrics) :
    0 ≤ engagementRate m ∧ (1 ≤ m.like_count → 1 ≤ engagementRate m) := by
  constructor
  · apply div_nonneg <;> positivity
  · intro h
    have hmax : max m.like_count 1 = m.like_count := max_eq_left h
    have hpos : (0 : ℚ) < (m.like_count : ℚ) := by exact_mod_cast h
    rw [engagementRate, hmax, one_le_div hpos]
    exact_mod_cast Nat.le_add_right m.like_count
      (m.retweet_count + m.reply_count + m.quote_count) |>.trans_eq (by
        simp [engagement]; ring)

/-- C10 witness: the post with metrics (2, 1, 0, 0). -/
theorem C10_engagement_rate_lower_bounds_witness :
    0 ≤ engagementRate ⟨2, 1, 0, 0⟩ ∧ 1 ≤ engagementRate ⟨2, 1, 0, 0⟩ :=
  ⟨(C10_engagement_rate_lower_bounds ⟨2, 1, 0, 0⟩).1,
   (C10_engagement_rate_lower_bounds ⟨2, 1, 0, 0⟩).2 (by decide)⟩

/-- C9: a run whose fetch step returns the empty post list terminates
with the explicit no-data result `None`, with an untouched table and
neither analysis lane invoked. -/
theorem C9_empty_fetch_short_circuits (ul keyOk lcA lcI : Bool) (u : String) :
    get_profile_analysis [] ul keyOk lcA lcI u =
      { result := none, finalRows := [],
        enhancedLaneInvoked := false, standardLaneInvoked := false } := rfl

/-- After `k` rate-limit rejections followed by a success, `get_user_info`
returns the successful data and has slept `cooldown * k` units. -/
lemma get_user_info_replicate {α : Type} (k : ℕ) (a : α) :
    get_user_info (List.replicate k FetchOutcome.rateLimited ++
      [FetchOutcome.success a]) = (some a, cooldown * k) := by
  induction k with
  | zero => simp [get_user_info]
  | succ n ih =>
      simp only [List.replicate_succ, List.cons_append, get_user_info,
        List.append_eq, ih, Nat.mul_succ]

/-- After `k` rate-limit rejections followed by a success,
`get_users_tweets` returns the successful list and has slept
`cooldown * k` units. -/
lemma get_users_tweets_replicate {α : Type} (k : ℕ) (l : List α) :
    get_users_tweets (List.replicate k FetchOutcome.rateLimited ++
      [FetchOutcome.success l]) = (l, cooldown * k) := by
  induction k with
  | zero => simp [get_users_tweets]
  | succ n ih =>
      simp only [List.replicate_succ, List.cons_append, get_users_tweets,
        List.append_eq, ih, Nat.mul_succ]

/-- C7: a rate-limit rejection makes the client sleep the fixed 900-unit
cooldown and retry the identical request, returning the retried request's
result; any number `k` of repeated rejections leads to `k` cooldown-and-
retry cycles and still returns the eventual success, for both fetch
entry points. -/
theorem C7_rate_limit_cooldown_and_retry :
    (∀ (α : Type) (outs : List (FetchOutcome α)),
        get_user_info (FetchOutcome.rateLimited :: outs) =
          ((get_user_info outs).1, (get_user_info outs).2 + cooldown)) ∧
    (∀ (α : Type) (k : ℕ) (a : α),
        get_user_info (List.replicate k FetchOutcome.rateLimited ++
          [FetchOutcome.success a]) = (some a, cooldown * k)) ∧
    (∀ (α : Type) (outs : List (FetchOutcome (List α))),
        get_users_tweets (FetchOutcome.rateLimited :: outs) =
          ((get_users_tweets outs).1, (get_users_tweets outs).2 + cooldown)) ∧
    (∀ (α : Type) (k : ℕ) (l : List α),
        get_users_tweets (List.replicate k FetchOutcome.rateLimited ++
          [FetchOutcome.success l]) = (l, cooldown * k)) :=
  ⟨fun _ _ => rfl, fun _ => get_user_info_replicate,
   fun _ _ => rfl, fun _ => get_users_tweets_replicate⟩

/-- C3: any agent constructed with the LangChain capability detected as
available has `langchain_enabled` set, and its
`analyze_content_with_langchain` returns the error-marker dictionary for
every input table, because the selected method `_langchain_analysis` is
not among the methods of the class; moreover `PromptTemplate` and
`RetrievalQA` are not among the imported names. -/
theorem C3_enhanced_lane_always_errors (keyOk lcA lcI : Bool) (a : LCAgent)
    (_hmk : mkLangChainAgent keyOk lcA lcI = .ok a)
    (hen : a.langchain_enabled = true) :
    (∀ (df : List Row) (u : String),
        hasErrorKey (analyze_content_with_langchain a df u) = true) ∧
    "_langchain_analysis" ∉ lcClassMethods ∧
    "PromptTemplate" ∉ lcImportedNames ∧
    "RetrievalQA" ∉ lcImportedNames := by
  refine ⟨fun df u => ?_, by decide, by decide, by decide⟩
  simp +decide [analyze_content_with_langchain, hen, hasErrorKey]

/-- C3 witness: the agent built with key present, LangChain available and
initialization successful, applied to the three-post fixture table. -/
theorem C3_enhanced_lane_always_errors_witness :
    hasErrorKey (analyze_content_with_langchain ⟨true⟩
      (tweets_to_dataframe tweets3) "user") = true ∧
    "_langchain_analysis" ∉ lcClassMethods :=
  ⟨(C3_enhanced_lane_always_errors true true true ⟨true⟩ rfl rfl).1
     (tweets_to_dataframe tweets3) "user",
   (C3_enhanced_lane_always_errors true true true ⟨true⟩ rfl rfl).2.1⟩

/-- C1 counterexample: a completed run on the three-post fixture with the
enhanced lane enabled (`use_langchain = true`) whose agent construction
raises (`OPENAI_API_KEY` absent) produces a results mapping without the
`langchain` key, so a failed enhanced attempt can omit the key. -/
theorem C1_counterexample :
    (get_profile_analysis tweets3 true false true true "user").result.isSome
      = true ∧
    (get_profile_analysis tweets3 true false true true "user").result.map
      (fun res => (lookupKey res "langchain").isNone) = some true ∧
    mkLangChainAgent false true true =
      Except.error "OpenAI API key not found" := by
  refine ⟨by decide, by decide, rfl⟩

/-- C1 amended: every completed run's results mapping contains the
`standard` key, and whenever the enhanced lane is enabled by the external
flag AND the enhanced agent's construction succeeds (the API key is
present), the mapping also contains the `langchain` key — whose value is
by construction either a successful result or the explicit error
marker. -/
theorem C1_merge_policy (tweets : List Tweet) (ul keyOk lcA lcI : Bool)
    (u : String) (h : tweets ≠ []) :
    ((get_profile_analysis tweets ul keyOk lcA lcI u).result.map
        (fun res => (lookupKey res "standard").isSome) = some true) ∧
    (ul = true → keyOk = true →
      (get_profile_analysis tweets ul keyOk lcA lcI u).result.map
        (fun res => (lookupKey res "langchain").isSome) = some true) := by
  have hne : tweets.isEmpty = false := by
    cases tweets with
    | nil => exact absurd rfl h
    | cons a l => rfl
  cases ul <;> cases keyOk <;>
    simp +decide [get_profile_analysis, hne, mkLangChainAgent, lookupKey,
      List.find?]

/-- C1 witness: the three-post fixture with the enhanced lane enabled and
the agent constructed successfully. -/
theorem C1_merge_policy_witness :
    ((get_profile_analysis tweets3 true true true true "user").result.map
        (fun res => (lookupKey res "standard").isSome) = some true) ∧
    ((get_profile_analysis tweets3 true true true true "user").result.map
        (fun res => (lookupKey res "langchain").isSome) = some true) :=
  ⟨(C1_merge_policy tweets3 true true true true "user" (by decide)).1,
   (C1_merge_policy tweets3 true true true true "user" (by decide)).2 rfl rfl⟩

/-- C5 counterexample: on the three-post fixture, a completed run leaves
rows whose `content_category` write count is not 1 — the column is
assigned more than once. -/
theorem C5_counterexample :
    ((get_profile_analysis tweets3 false true true true "user").finalRows.all
      (fun r => r.catWrites == 1)) = false := by decide

/-- C5 amended: over one full run, the `content_category` field of every
row of the final feature table is written exactly twice — once by the
categorization step of `get_profile_analysis` and once more inside the
standard lane's `prepare_content_data` — both times applying the same
`categorize_tweet` to the row's unchanged text, so the final value equals
the single application the claim describes. -/
theorem C5_category_written_twice (tweets : List Tweet)
    (ul keyOk lcA lcI : Bool) (u : String) :
    ((get_profile_analysis tweets ul keyOk lcA lcI u).finalRows.all
      (fun r => r.catWrites == 2 &&
        r.content_category == some (categorize_tweet r.text))) = true := by
  by_cases h : tweets.isEmpty
  · simp [get_profile_analysis, h]
  · simp only [get_profile_analysis, h]
    simp [List.all_eq_true, assignCategories, tweets_to_dataframe,
      List.mem_map, tweetToRow]

/-- The fixture's engagement column is [5, 10, 15]. -/
lemma engagements3_eq : engagements3 = [5, 10, 15] := by decide

/-- The sample variance (pandas `std` squared, `ddof = 1`) of the
fixture's engagement column is 25. -/
lemma sampleVariance_engagements3 : sampleVariance engagements3 = 25 := by
  rw [engagements3_eq]
  norm_num [sampleVariance, listMean, List.sum_cons, List.sum_nil, List.map]

/-- C4 as stated: mean 10, median 10, max 15, and a consistency ratio
(standard deviation over mean) within 1/100 of 0.408. -/
def C4Claim : Prop :=
  listMean engagements3 = 10 ∧ listMedian engagements3 = 10 ∧
  listMax engagements3 = 15 ∧
  ∃ s : ℚ, stdIs engagements3 s ∧
    |s / listMean engagements3 - 408 / 1000| ≤ 1 / 100

/-- C4 counterexample: the claim fails on the three-row fixture, because
pandas computes the sample standard deviation (`ddof = 1`), which is 5
here, giving a consistency ratio of 0.5, not approximately 0.408 (the
population-standard-deviation figure). -/
theorem C4_counterexample : ¬ C4Claim := by
  rintro ⟨hm, -, -, st, ⟨hs0, hs2⟩, happ⟩
  rw [sampleVariance_engagements3] at hs2
  have hfac : (st - 5) * (st + 5) = 0 := by ring_nf; linarith [hs2]
  have hst : st = 5 := by
    rcases mul_eq_zero.mp hfac with h5 | h5
    · linarith
    · linarith
  rw [hst, hm] at happ
  norm_num at happ
  rw [abs_of_nonneg (by norm_num : (0 : ℚ) ≤ 23 / 250)] at happ
  linarith

/-- C4 amended: for the three-row fixture with engagement [5, 10, 15],
the standard lane's mean, median and max engagement are 10, 10 and 15 as
claimed, while the engagement-consistency ratio (pandas sample standard
deviation divided by mean) equals 0.5, since the sample standard
deviation is 5. -/
theorem C4_overall_metrics :
    listMean engagements3 = 10 ∧ listMedian engagements3 = 10 ∧
    listMax engagements3 = 15 ∧ stdIs engagements3 5 ∧
    (5 : ℚ) / listMean engagements3 = 1 / 2 := by
  have hm : listMean engagements3 = 10 := by
    rw [engagements3_eq]
    norm_num [listMean, List.sum_cons, List.sum_nil]
  refine ⟨hm, by decide, by decide, ⟨by norm_num, ?_⟩, ?_⟩
  · rw [sampleVariance_engagements3]; norm_num
  · rw [hm]; norm_num

/-- After `_rate_limited_request`, the recorded time is at least
`min_delay` past the previous `last_request_time`. -/
lemma rlr_clock_bound (s : RLState) (h : s.last ≤ s.clock) :
    s.last + min_delay ≤ (rate_limited_request s).clock := by
  simp only [rate_limited_request, min_delay]
  split <;> omega

/-- `_rate_limited_request` records the call time as the new
`last_request_time`. -/
lemma rlr_last_eq (s : RLState) :
    (rate_limited_request s).last = (rate_limited_request s).clock := rfl

/-- The guarded provider calls of any run are pairwise at least
`min_delay` apart, and the first one is at least `min_delay` past the
initial `last_request_time`. -/
lemma guarded_chain_aux (ops : List (ℕ × XOp)) :
    ∀ s : RLState, s.last ≤ s.clock →
      List.Chain' (fun a b => a + min_delay ≤ b) (guardedCallTimes s ops) ∧
      ∀ t ∈ (guardedCallTimes s ops).head?, s.last + min_delay ≤ t := by
  induction ops with
  | nil =>
      intro s h
      simp [guardedCallTimes, callEvents]
  | cons p rest ih =>
      intro s h
      obtain ⟨d, op⟩ := p
      have h' : (⟨s.clock + d, s.last⟩ : RLState).last ≤
          (⟨s.clock + d, s.last⟩ : RLState).clock := by
        simp; omega
      cases op with
      | userInfo =>
          have hg : guardedCallTimes s ((d, XOp.userInfo) :: rest) =
              (rate_limited_request ⟨s.clock + d, s.last⟩).clock ::
                guardedCallTimes (rate_limited_request ⟨s.clock + d, s.last⟩) rest := by
            simp [guardedCallTimes, callEvents, runOp]
          have hb : s.last + min_delay ≤
              (rate_limited_request ⟨s.clock + d, s.last⟩).clock :=
            rlr_clock_bound ⟨s.clock + d, s.last⟩ h'
          have hnext := ih (rate_limited_request ⟨s.clock + d, s.last⟩)
            (le_of_eq (rlr_last_eq _))
          rw [hg]
          constructor
          · rw [List.chain'_cons']
            refine ⟨?_, hnext.1⟩
            intro y hy
            have := hnext.2 y hy
            rw [rlr_last_eq] at this
            exact this
          · intro t ht
            simp only [List.head?_cons, Option.mem_def, Option.some.injEq] at ht
            omega
      | usersTweets =>
          have hg : guardedCallTimes s ((d, XOp.usersTweets) :: rest) =
              (rate_limited_request ⟨s.clock + d, s.last⟩).clock ::
                guardedCallTimes
                  ⟨(rate_limited_request ⟨s.clock + d, s.last⟩).clock + 3,
                   (rate_limited_request ⟨s.clock + d, s.last⟩).last⟩ rest := by
            simp [guardedCallTimes, callEvents, runOp]
          have hb : s.last + min_delay ≤
              (rate_limited_request ⟨s.clock + d, s.last⟩).clock :=
            rlr_clock_bound ⟨s.clock + d, s.last⟩ h'
          have hnext := ih
            ⟨(rate_limited_request ⟨s.clock + d, s.last⟩).clock + 3,
             (rate_limited_request ⟨s.clock + d, s.last⟩).last⟩
            (by dsimp only; rw [rlr_last_eq]; omega)
          rw [hg]
          constructor
          · rw [List.chain'_cons']
            refine ⟨?_, hnext.1⟩
            intro y hy
            have := hnext.2 y hy
            simp only [rlr_last_eq] at this
            exact this
          · intro t ht
            simp only [List.head?_cons, Option.mem_def, Option.some.injEq] at ht
            omega

/-- C2 counterexample: a single `get_users_tweets` fetch started at time
0 issues its two provider calls at times 5 and 8, only 3 time-units
apart, so consecutive calls of one instance are not always separated by
the minimum delay of 5. -/
theorem C2_counterexample :
    ¬ List.Chain' (fun a b => a + min_delay ≤ b)
        (callTimes ⟨0, 0⟩ [(0, XOp.usersTweets)]) := by
  have h : callTimes ⟨0, 0⟩ [(0, XOp.usersTweets)] = [5, 8] := by decide
  rw [h, List.chain'_pair]
  decide

/-- C2 amended: the guarded provider calls — those immediately preceded
by `_rate_limited_request`, i.e. the first call of each fetch operation —
are pairwise at least `min_delay = 5` time-units apart across any
operation sequence on one instance; but the second call inside a single
`get_users_tweets` fetch follows the first after exactly the fixed 3-unit
sleep, and is not covered by the minimum-delay guarantee. -/
theorem C2_guarded_calls_min_delay (s : RLState) (ops : List (ℕ × XOp))
    (h : s.last ≤ s.clock) :
    List.Chain' (fun a b => a + min_delay ≤ b) (guardedCallTimes s ops) ∧
    (∀ s2 : RLState, (runOp s2 XOp.usersTweets).2 =
      [(true, (rate_limited_request s2).clock),
       (false, (rate_limited_request s2).clock + 3)]) :=
  ⟨(guarded_chain_aux ops s h).1, fun _ => rfl⟩

/-- C2 witness: a fresh instance running a user-info fetch, a tweets
fetch after 2 idle units, and another user-info fetch back-to-back. -/
theorem C2_guarded_calls_min_delay_witness :
    List.Chain' (fun a b => a + min_delay ≤ b)
      (guardedCallTimes ⟨0, 0⟩
        [(0, XOp.userInfo), (2, XOp.usersTweets), (0, XOp.userInfo)]) ∧
    (∀ s2 : RLState, (runOp s2 XOp.usersTweets).2 =
      [(true, (rate_limited_request s2).clock),
       (false, (rate_limited_request s2).clock + 3)]) :=
  C2_guarded_calls_min_delay ⟨0, 0⟩
    [(0, XOp.userInfo), (2, XOp.usersTweets), (0, XOp.userInfo)] (by decide)

end XProfile
